import Mathlib

/-!
Shallow embedding of the core of `commits-fall-like-leaves`: the haiku
generation service (`internal/service/haiku`), the Bedrock model-invocation
client (`internal/clients/bedrock`), and the HTTP handler
(`internal/api/haiku.go`).

Conventions of the embedding:
* Go `string` is Lean `String`; Go `int` is `Int`; Go `float64` values that
  the code only compares with `<`/`≤` are embedded as `ℚ` (every finite
  float is an exact rational and float ordering agrees with rational
  ordering on such values).
* A fallible Go function returning `(T, error)` is embedded as a `GoResult`
  value; a run-time fault (index out of range) is the `crash` constructor.
* The JSON wire round-trip (`json.Marshal` / `json.Unmarshal`) is modelled
  as the identity on the structured value; a transport response body that
  does not unmarshal is `Option.none`.
* The injected collaborators (the Bedrock runtime transport, the Bedrock
  client seen by the service, the service seen by the handler) are function
  arguments, and each embedded operation also returns the list of outbound
  calls it made, so that "the collaborator observes zero invocations" is a
  statement about that list.
-/

namespace Leaves

/-- Result of a Go call: a value, a returned error, or a run-time panic. -/
inductive GoResult (ε α : Type) where
  | ok (a : α)
  | err (e : ε)
  | crash
deriving DecidableEq, Repr

/-- Decides whether `pat` occurs at the head of `s` (character-exact). -/
def leadMatch : List Char → List Char → Bool
  | _, [] => true
  | [], _ :: _ => false
  | c :: cs, p :: ps => c == p && leadMatch cs ps

/-- Decides whether `pat` occurs anywhere in `s` (Go `strings.Contains`). -/
def containsSub : List Char → List Char → Bool
  | [], pat => leadMatch [] pat
  | c :: cs, pat => leadMatch (c :: cs) pat || containsSub cs pat

/-- Go `strings.Contains s pat`: case-sensitive substring search. -/
def strContains (s pat : String) : Bool :=
  containsSub s.toList pat.toList

/-! ### `internal/clients/bedrock/constants.go` -/

def ClaudeModelID : String := "global.anthropic.claude-haiku-4-5-20251001-v1:0"

def DefaultMaxTokens : Int := 500

/-- `DefaultTemperature = 0.7` (embedded as the exact rational 7/10,
written with `mkRat` so that it evaluates by kernel reduction). -/
def DefaultTemperature : ℚ := mkRat 7 10

def ValidationExceptionCode : String := "ValidationException"
def ResourceNotFoundExceptionCode : String := "ResourceNotFoundException"
def ThrottlingExceptionCode : String := "ThrottlingException"
def ServiceQuotaExceededExceptionCode : String := "ServiceQuotaExceededException"
def AccessDeniedExceptionCode : String := "AccessDeniedException"
def InternalServerExceptionCode : String := "InternalServerException"

/-! ### `internal/clients/bedrock/errors.go` -/

/-- The package-level error sentinels of `errors.go`, one constructor per
sentinel. Spec names: `invalidRequest` = `InvalidRequest`,
`modelInvocation` = generic `ModelInvocationFailed`, `responseParsing` =
`ResponseParsingFailed`, `modelUnavailable` = `ModelUnavailable`,
`quotaExceeded` = `QuotaExceeded`, `throttling` = `Throttled`,
`validation` = `ValidationFailed`. -/
inductive ErrKind where
  | invalidRequest
  | modelInvocation
  | responseParsing
  | modelUnavailable
  | quotaExceeded
  | throttling
  | validation
deriving DecidableEq, Repr

/-- A transport-level error as seen by `handleBedrockError`: either a
provider API error (smithy `APIError`, carrying an error-code string, a
message, an optional HTTP status and a request identifier) or any other
error value. -/
inductive TransportError where
  | apiError (code message : String) (statusCode : Option Int) (requestId : String)
  | plainError (message : String)
deriving DecidableEq, Repr

/-- `handleBedrockError` of `errors.go`: maps a transport error to the
sentinel it wraps. The `switch` is a first-match chain of
`strings.Contains` tests on the provider error code; a non-API error and
an unrecognized code both map to `ErrModelInvocation`. -/
def handleBedrockError : TransportError → ErrKind
  | .apiError code _ _ _ =>
    if strContains code ValidationExceptionCode then .validation
    else if strContains code ResourceNotFoundExceptionCode then .modelUnavailable
    else if strContains code ThrottlingExceptionCode then .throttling
    else if strContains code ServiceQuotaExceededExceptionCode then .quotaExceeded
    else if strContains code AccessDeniedExceptionCode then .validation
    else if strContains code InternalServerExceptionCode then .modelInvocation
    else .modelInvocation
  | .plainError _ => .modelInvocation

/-- The specification's classification table (§4.3), in table order, each
code paired with the kind the spec maps it to. Used only to compare the
source classifier against the spec's "first match wins" reading. -/
def specErrorTable : List (String × ErrKind) :=
  [(ValidationExceptionCode, .validation),
   (ResourceNotFoundExceptionCode, .modelUnavailable),
   (ThrottlingExceptionCode, .throttling),
   (ServiceQuotaExceededExceptionCode, .quotaExceeded),
   (AccessDeniedExceptionCode, .validation),
   (InternalServerExceptionCode, .modelInvocation)]

/-- The classifier as the specification words it: look the error code up in
the fixed table by case-sensitive substring match, first match wins;
anything unmatched, and any error that is not a provider API error, is the
generic invocation failure. -/
def specClassify : TransportError → ErrKind
  | .apiError code _ _ _ =>
    match specErrorTable.find? (fun e => strContains code e.1) with
    | some e => e.2
    | none => .modelInvocation
  | .plainError _ => .modelInvocation

/-! ### `internal/clients/bedrock/models.go` -/

/-- One content block of the messages-API wire format. The Go field is
named `Type`; that name is a keyword in Lean, so the field is `Ty` here. -/
structure ContentBlock where
  Text : String
  Ty : String
deriving DecidableEq, Repr

structure Message where
  Content : List ContentBlock
  Role : String
deriving DecidableEq, Repr

/-- The provider request body (messages API variant, the current one). -/
structure ClaudeRequest where
  MaxTokens : Int
  Messages : List Message
  System : String
  Temperature : ℚ
deriving DecidableEq, Repr

/-- The provider response body: `{content:[{type, text}]}`. -/
structure ClaudeResponse where
  Content : List ContentBlock
deriving DecidableEq, Repr

/-- Caller-side options; Go zero values as field defaults, matching a Go
struct literal that omits fields. -/
structure ClaudeOptions where
  MaxTokens : Int := 0
  Temperature : ℚ := 0
  System : String := ""
deriving DecidableEq, Repr

def DefaultClaudeOptions : ClaudeOptions :=
  { MaxTokens := DefaultMaxTokens
    Temperature := DefaultTemperature }

/-- The option-merge block at the head of `InvokeClaude`: start from
`DefaultClaudeOptions`; when `opts` is non-nil, take `MaxTokens` only if
positive, `Temperature` only if in `(0, 1]`, `System` only if non-empty. -/
def mergeClaudeOptions : Option ClaudeOptions → ClaudeOptions
  | none => DefaultClaudeOptions
  | some o =>
    let options := DefaultClaudeOptions
    let options := if o.MaxTokens > 0 then { options with MaxTokens := o.MaxTokens } else options
    let options :=
      if 0 < o.Temperature ∧ o.Temperature ≤ 1 then { options with Temperature := o.Temperature }
      else options
    if o.System ≠ "" then { options with System := o.System } else options

/-- The provider request `InvokeClaude` builds: one user-role message with
one text content block, plus the merged options. -/
def buildClaudeRequest (prompt : String) (options : ClaudeOptions) : ClaudeRequest :=
  { MaxTokens := options.MaxTokens
    Messages := [{ Role := "user", Content := [{ Text := prompt, Ty := "text" }] }]
    Temperature := options.Temperature
    System := options.System }

/-- What one call to the injected Bedrock runtime transport can produce:
a provider error, or a response body. The body is carried already parsed;
`none` stands for a body on which `json.Unmarshal` fails. -/
inductive TransportOutcome where
  | failure (e : TransportError)
  | success (parsed : Option ClaudeResponse)

/-- A Bedrock-client error value: the sentinel it wraps plus the appended
detail text. -/
structure BedrockErr where
  sentinel : ErrKind
  detail : String
deriving DecidableEq, Repr

/-- `InvokeClaude` of `models.go`. Returns the Go result paired with the
list of requests actually handed to the transport. An empty prompt fails
with `ErrInvalidRequest` before any transport call; `json.Marshal` cannot
fail on this request shape, so its error branch is unreachable and not
modelled; a transport error goes through `handleBedrockError`; a body that
does not unmarshal fails with `ErrResponseParsing`; on success the source
evaluates `response.Content[0].Text`, which on an empty content slice is
an index-out-of-range fault (`crash`). -/
def InvokeClaude (transport : ClaudeRequest → TransportOutcome) (prompt : String)
    (opts : Option ClaudeOptions) : GoResult BedrockErr String × List ClaudeRequest :=
  if prompt = "" then
    (.err { sentinel := .invalidRequest, detail := "prompt cannot be empty" }, [])
  else
    let options := mergeClaudeOptions opts
    let request := buildClaudeRequest prompt options
    match transport request with
    | .failure e =>
      (.err { sentinel := handleBedrockError e, detail := "bedrock error" }, [request])
    | .success none =>
      (.err { sentinel := .responseParsing, detail := "unmarshal failure" }, [request])
    | .success (some response) =>
      match response.Content with
      | [] => (.crash, [request])
      | block :: _ => (.ok block.Text, [request])

/-! ### `internal/service/haiku` (types, constants, service) -/

/-- Go `type Mood string`. -/
abbrev Mood := String

def MoodHumerous : Mood := "humorous"
def MoodReflective : Mood := "reflective"
def MoodTechnical : Mood := "technical"

/-- `Mood.IsValid`: the `switch` over the three declared moods. -/
def Mood.IsValid (m : Mood) : Bool :=
  m == MoodHumerous || m == MoodReflective || m == MoodTechnical

structure HaikuCommitRequest where
  CommitMessage : String
  Mood : Mood
deriving DecidableEq, Repr

structure HaikuCommitResponse where
  Haiku : String
deriving DecidableEq, Repr

/-- `HaikuSystemPrompt` of `internal/service/haiku/constants.go` (the Go
raw string, newlines written as escapes; its exact text is never inspected
by the service logic). -/
def HaikuSystemPrompt : String :=
  "\nYou are a poetic assistant that writes concise haiku inspired by software commit messages.\n\nYour task is to transform a commit message into a haiku that reflects its meaning, purpose, or mood. \nThe haiku should:\n- Follow the traditional 3-line structure with a 5-7-5 syllable pattern.  \n- Maintain the reflective, minimal tone of a haiku: simple, vivid, and natural.  \n- Allow the first line to stand *almost* like a commit message on its own (e.g., \"Fix broken pipeline\", \"Add missing tests\"), but this is not a strict requirement.  \n- Avoid technical jargon unless it contributes to the mood or imagery.  \n- Never include extra commentary, explanations, or formatting. Output only the haiku text.\n\nExample input and output:\n\nCommit message: \"Fix API timeout during deployment\"\nHaiku:\nFix the waiting thread  \ntime drifts beyond the pipeline  \nsilence in the logs\n\nCommit message: \"Add README to project\"\nHaiku:\nFirst notes on the page  \nthe silence learns to explain  \nwhat the code will sing\n"

/-- The service-level error sentinels: `badHaikuRequest` is
`ErrBadHaikuRequest` returned by identity (the spec's `InvalidInput`);
`createHaiku cause` is the `fmt.Errorf` wrap of `ErrCreateHaiku` around a
client error (the spec's `GenerationFailed`). `ε` is the error type of the
injected client. -/
inductive HaikuErr (ε : Type) where
  | badHaikuRequest
  | createHaiku (cause : ε)
deriving DecidableEq, Repr

/-- Everything observable about one run of `CreateHaiku`: the Go return
value, the invocations made on the injected Bedrock client, and the value
of the (by-value) `request` variable when the function exits — the source
contains no assignment to `request`, so each exit passes it through
unchanged. -/
structure CreateHaikuOutcome (ε : Type) where
  result : GoResult (HaikuErr ε) HaikuCommitResponse
  calls : List (String × Option ClaudeOptions)
  requestAfter : HaikuCommitRequest
deriving DecidableEq, Repr

/-- `CreateHaiku` of the haiku service, over an injected client (the
`BedrockClient` interface). An invalid non-empty mood fails with
`ErrBadHaikuRequest` before any client call; an empty mood is replaced by
`MoodReflective` in the local `mood` variable only; the prompt is the
`fmt.Sprintf` template; the client is called with options carrying only
the system prompt (other fields Go zero values). -/
def CreateHaiku {ε : Type} (client : String → Option ClaudeOptions → GoResult ε String)
    (request : HaikuCommitRequest) : CreateHaikuOutcome ε :=
  let mood := request.Mood
  if mood ≠ "" ∧ ¬ Mood.IsValid mood then
    { result := .err .badHaikuRequest, calls := [], requestAfter := request }
  else
    let mood := if request.Mood = "" then MoodReflective else mood
    let prompt := "Create a " ++ mood ++ " haiku from this commit message: " ++ request.CommitMessage
    let options : ClaudeOptions := { System := HaikuSystemPrompt }
    match client prompt (some options) with
    | .ok response =>
      { result := .ok { Haiku := response }, calls := [(prompt, some options)],
        requestAfter := request }
    | .err e =>
      { result := .err (.createHaiku e), calls := [(prompt, some options)],
        requestAfter := request }
    | .crash =>
      { result := .crash, calls := [(prompt, some options)], requestAfter := request }

/-! ### `internal/api/haiku.go` (HTTP handler) -/

/-- Modelled from the spec: the `api` package constant `MaxCommitLength`
is declared outside the provided sources; §6 of the spec fixes the maximum
commit-message length the repository uses at 500 characters. -/
def MaxCommitLength : Nat := 500

/-- Modelled from the spec: the `api` package constant `InvalidRequest`,
the coarse caller-facing error string used in every 400 body; its exact
text is outside the provided sources and never load-bearing. -/
def InvalidRequest : String := "invalid request"

/-- Modelled from the spec: the `api` package constant
`InternalServerError`, the coarse caller-facing error string used in the
500 body ("internal server error" per §7); its exact text is outside the
provided sources and never load-bearing. -/
def InternalServerError : String := "internal server error"

/-- What `postHaiku` receives from `gin`: either `ShouldBindJSON` failed
with some message, or it produced a bound request. -/
inductive BindOutcome where
  | bindFailure (message : String)
  | bound (request : HaikuCommitRequest)
deriving DecidableEq, Repr

/-- The JSON body `postHaiku` writes: `{error, details}`, `{error}`, or
the success payload. -/
inductive HttpBody where
  | errorWithDetails (error details : String)
  | errorOnly (error : String)
  | haiku (response : HaikuCommitResponse)
deriving DecidableEq, Repr

/-- The error text of `ErrBadHaikuRequest`, which the handler forwards as
`details` via `err.Error()`. -/
def badHaikuRequestText : String := "bad haiku request received"

/-- `postHaiku` of `internal/api/haiku.go`, over the injected
`haikuService` collaborator (which, like the Go interface, returns a value
or an error — never a panic). Go `len` on a string counts bytes, so the
length guard is on `String.utf8ByteSize`. The sentinel comparison
`err == haiku.ErrBadHaikuRequest` is comparison with the identical
sentinel value, true exactly for the service's `badHaikuRequest` result.
Returns the HTTP status and the response body. -/
def postHaiku {ε : Type} (service : HaikuCommitRequest → Except (HaikuErr ε) HaikuCommitResponse) :
    BindOutcome → Nat × HttpBody
  | .bindFailure msg => (400, .errorWithDetails InvalidRequest msg)
  | .bound request =>
    if request.CommitMessage.utf8ByteSize > MaxCommitLength then
      (400, .errorWithDetails InvalidRequest
        ("commitMessage exceeds " ++ toString MaxCommitLength ++ " characters"))
    else
      match service request with
      | .error .badHaikuRequest => (400, .errorWithDetails InvalidRequest badHaikuRequestText)
      | .error (.createHaiku _) => (500, .errorOnly InternalServerError)
      | .ok response => (200, .haiku response)

/-! ### Helper lemmas -/

/-- A string has no more characters than UTF-8 bytes (Go `len` counts
bytes). -/
theorem length_le_utf8ByteSize (s : String) : s.length ≤ s.utf8ByteSize := by
  cases s with
  | mk data =>
    simp only [String.utf8ByteSize_mk, String.length]
    induction data with
    | nil => simp
    | cons c cs ih =>
      have := Char.utf8Size_pos c
      simp only [String.utf8Len_cons, List.length_cons]
      omega

/-- The prompt template always yields a non-empty string. -/
theorem prompt_ne_empty (m c : String) :
    ("Create a " ++ m ++ " haiku from this commit message: " ++ c) ≠ "" := by
  intro h
  have h2 := congrArg String.length h
  simp only [String.length_append] at h2
  have h9 : ("Create a ").length = 9 := rfl
  have h33 : (" haiku from this commit message: ").length = 33 := rfl
  have h0 : ("" : String).length = 0 := rfl
  omega

/-- A 501-character commit message, for exercising the handler's length
guard. -/
theorem replicate501_length_gt : 500 < (String.mk (List.replicate 501 'a')).length := by
  have h : (String.mk (List.replicate 501 'a')).length = 501 := by
    show (List.replicate 501 'a').length = 501
    rw [List.length_replicate]
  omega

/-- A client collaborator that returns a fixed result on every
invocation (the shape of the service test's mock client); its error type
is `String`, an arbitrary mock error message. -/
def constClient (r : GoResult String String) : String → Option ClaudeOptions → GoResult String String :=
  fun _ _ => r

/-! ### Claim theorems -/

/-- Claim C1: the error classifier agrees everywhere with the
specification's fixed table read with case-sensitive substring matching
and first-match-wins priority (unrecognized provider codes and
non-API-shaped errors both yield the generic invocation-failure kind);
and the match is case-sensitive: a lowercased code matches nothing and
falls through to the generic kind. -/
theorem handleBedrockError_matches_spec_table :
    (∀ e : TransportError, handleBedrockError e = specClassify e) ∧
    (∀ msg st rid,
      handleBedrockError (.apiError "validationexception" msg st rid) = .modelInvocation) := by
  constructor
  · intro e
    cases e with
    | plainError m => rfl
    | apiError code msg st rid =>
      simp only [handleBedrockError, specClassify, specErrorTable, List.find?]
      by_cases h1 : strContains code ValidationExceptionCode <;> simp [h1] <;>
      by_cases h2 : strContains code ResourceNotFoundExceptionCode <;> simp [h2] <;>
      by_cases h3 : strContains code ThrottlingExceptionCode <;> simp [h3] <;>
      by_cases h4 : strContains code ServiceQuotaExceededExceptionCode <;> simp [h4] <;>
      by_cases h5 : strContains code AccessDeniedExceptionCode <;> simp [h5] <;>
      by_cases h6 : strContains code InternalServerExceptionCode <;> simp [h6]
  · intro msg st rid
    rfl

/-- Claim C2: for any non-empty mood outside the closed set, `CreateHaiku`
fails with `ErrBadHaikuRequest`, makes no client invocation, and leaves
the request unchanged — for every commit message and every client. -/
theorem CreateHaiku_invalid_mood_rejected (ε : Type)
    (client : String → Option ClaudeOptions → GoResult ε String) (msg mood : String)
    (h1 : mood ≠ "") (h2 : Mood.IsValid mood = false) :
    CreateHaiku client { CommitMessage := msg, Mood := mood } =
      { result := .err .badHaikuRequest, calls := [],
        requestAfter := { CommitMessage := msg, Mood := mood } } := by
  simp [CreateHaiku, h1, h2]

/-- Witness for C2 at mood `"silly"`. -/
theorem CreateHaiku_invalid_mood_rejected_witness :
    CreateHaiku (constClient (.ok "x")) { CommitMessage := "feat: add easter egg", Mood := "silly" } =
      { result := .err .badHaikuRequest, calls := [],
        requestAfter := { CommitMessage := "feat: add easter egg", Mood := "silly" } } :=
  CreateHaiku_invalid_mood_rejected String (constClient (.ok "x"))
    "feat: add easter egg" "silly" (by decide) (by decide)

/-- Claim C3: for every valid `(commitMessage, mood)` pair the single
prompt handed to the client is exactly the template with an empty mood
replaced by `"reflective"`; and `CreateHaiku` with `mood=""` has the same
result and makes the same client invocations as with
`mood="reflective"`. -/
theorem CreateHaiku_prompt_template :
    (∀ (ε : Type) (client : String → Option ClaudeOptions → GoResult ε String)
      (msg mood : String), mood = "" ∨ Mood.IsValid mood = true →
      (CreateHaiku client { CommitMessage := msg, Mood := mood }).calls.map Prod.fst =
        ["Create a " ++ (if mood = "" then MoodReflective else mood) ++
          " haiku from this commit message: " ++ msg]) ∧
    (∀ (ε : Type) (client : String → Option ClaudeOptions → GoResult ε String) (msg : String),
      (CreateHaiku client { CommitMessage := msg, Mood := "" }).result =
        (CreateHaiku client { CommitMessage := msg, Mood := MoodReflective }).result ∧
      (CreateHaiku client { CommitMessage := msg, Mood := "" }).calls =
        (CreateHaiku client { CommitMessage := msg, Mood := MoodReflective }).calls) := by
  constructor
  · intro ε client msg mood h
    have hcond : ¬ (mood ≠ "" ∧ ¬ Mood.IsValid mood) := by
      rcases h with h | h
      · simp [h]
      · simp [h]
    simp only [CreateHaiku]
    rw [if_neg hcond]
    split <;> simp_all
  · intro ε client msg
    constructor <;> simp [CreateHaiku, Mood.IsValid, MoodReflective] <;> split <;> rfl

/-- Witness for C3 at `(commitMessage, mood) = ("refactor: optimize database queries", "technical")`. -/
theorem CreateHaiku_prompt_template_witness :
    (CreateHaiku (constClient (.ok "x"))
        { CommitMessage := "refactor: optimize database queries", Mood := "technical" }).calls.map
        Prod.fst =
      ["Create a " ++ (if ("technical" : String) = "" then MoodReflective else "technical") ++
        " haiku from this commit message: " ++ "refactor: optimize database queries"] :=
  CreateHaiku_prompt_template.1 String (constClient (.ok "x"))
    "refactor: optimize database queries" "technical" (Or.inr (by decide))

/-- Claim C4: an empty prompt fails with `ErrInvalidRequest` for every
options value and every transport, and the transport receives zero
invocations. -/
theorem InvokeClaude_empty_prompt_invalid
    (transport : ClaudeRequest → TransportOutcome) (opts : Option ClaudeOptions) :
    InvokeClaude transport "" opts =
      (.err { sentinel := .invalidRequest, detail := "prompt cannot be empty" }, []) := by
  simp [InvokeClaude]

/-- Claim C5 (divergence witness): on a transport success whose body is a
well-formed response with an empty content array, `InvokeClaude` reaches
the index-out-of-range access `response.Content[0]` and faults instead of
returning an `ErrResponseParsing` error. -/
theorem InvokeClaude_empty_content_out_of_range :
    InvokeClaude (fun _ => .success (some { Content := [] })) "p" none =
      (.crash, [buildClaudeRequest "p" DefaultClaudeOptions]) := by
  simp [InvokeClaude, mergeClaudeOptions]

/-- Claim C6: the temperature override applies exactly on `(0, 1]`: any
out-of-range caller temperature leaves the default `0.7` in force; in
particular a caller temperature of `1.5` (here `mkRat 3 2`) or of exactly
`0` behaves identically — same provider request, same outcome, no error —
to passing no options at all; and an in-range temperature is forwarded. -/
theorem InvokeClaude_temperature_merge :
    (∀ o : ClaudeOptions, ¬ (0 < o.Temperature ∧ o.Temperature ≤ 1) →
      (mergeClaudeOptions (some o)).Temperature = DefaultTemperature) ∧
    (∀ (transport : ClaudeRequest → TransportOutcome) (p : String),
      InvokeClaude transport p (some { MaxTokens := 0, Temperature := mkRat 3 2, System := "" }) =
        InvokeClaude transport p none) ∧
    (∀ (transport : ClaudeRequest → TransportOutcome) (p : String),
      InvokeClaude transport p (some { MaxTokens := 0, Temperature := 0, System := "" }) =
        InvokeClaude transport p none) ∧
    (∀ o : ClaudeOptions, 0 < o.Temperature → o.Temperature ≤ 1 →
      (mergeClaudeOptions (some o)).Temperature = o.Temperature) := by
  refine ⟨?_, ?_, ?_, ?_⟩
  · intro o h
    simp only [mergeClaudeOptions]
    rw [if_neg h]
    split <;> split <;> rfl
  · intro transport p
    have h : mergeClaudeOptions (some { MaxTokens := 0, Temperature := mkRat 3 2, System := "" }) =
        mergeClaudeOptions none := by decide
    simp only [InvokeClaude, h]
  · intro transport p
    have h : mergeClaudeOptions (some { MaxTokens := 0, Temperature := 0, System := "" }) =
        mergeClaudeOptions none := by decide
    simp only [InvokeClaude, h]
  · intro o h1 h2
    simp only [mergeClaudeOptions]
    rw [if_pos (And.intro h1 h2)]
    split <;> split <;> rfl

/-- Witness for C6 at caller temperatures `1.5`, `0`, and `0.5`. -/
theorem InvokeClaude_temperature_merge_witness :
    (mergeClaudeOptions (some { MaxTokens := 0, Temperature := mkRat 3 2, System := "" })).Temperature =
        DefaultTemperature ∧
    (mergeClaudeOptions (some { MaxTokens := 0, Temperature := 0, System := "" })).Temperature =
        DefaultTemperature ∧
    (mergeClaudeOptions (some { MaxTokens := 0, Temperature := mkRat 1 2, System := "" })).Temperature =
        mkRat 1 2 :=
  ⟨InvokeClaude_temperature_merge.1 { MaxTokens := 0, Temperature := mkRat 3 2, System := "" }
      (by decide),
   InvokeClaude_temperature_merge.1 { MaxTokens := 0, Temperature := 0, System := "" }
      (by decide),
   InvokeClaude_temperature_merge.2.2.2 { MaxTokens := 0, Temperature := mkRat 1 2, System := "" }
      (by decide) (by decide)⟩

/-- Claim C7 counterexample: with a caller `maxTokens` of `0`, the
provider request carries the default `500`, not `0` — refuting the claim
that a non-negative caller value, and `0` in particular, overrides the
default. -/
theorem maxTokens_zero_not_forwarded :
    ((InvokeClaude (fun _ => .failure (.plainError "x")) "p"
        (some { MaxTokens := 0, Temperature := 0, System := "" })).2.map
        (fun r => r.MaxTokens)) = [500] ∧
    ((InvokeClaude (fun _ => .failure (.plainError "x")) "p"
        (some { MaxTokens := 0, Temperature := 0, System := "" })).2.map
        (fun r => r.MaxTokens)) ≠ [0] := by
  decide

/-- Claim C7 as amended: the `maxTokens` override applies only to a
strictly positive caller value; any caller value `≤ 0` (so `0` in
particular) leaves the default `500` in the provider request. -/
theorem InvokeClaude_maxTokens_merge :
    (∀ o : ClaudeOptions, 0 < o.MaxTokens →
      (mergeClaudeOptions (some o)).MaxTokens = o.MaxTokens) ∧
    (∀ o : ClaudeOptions, o.MaxTokens ≤ 0 →
      (mergeClaudeOptions (some o)).MaxTokens = DefaultMaxTokens) ∧
    (∀ transport : ClaudeRequest → TransportOutcome,
      ((InvokeClaude transport "p" (some { MaxTokens := 0, Temperature := 0, System := "" })).2.map
        (fun r => r.MaxTokens)) = [DefaultMaxTokens]) := by
  refine ⟨?_, ?_, ?_⟩
  · intro o h
    simp only [mergeClaudeOptions]
    rw [if_pos h]
    split <;> split <;> rfl
  · intro o h
    have h2 : ¬ (o.MaxTokens > 0) := by omega
    simp only [mergeClaudeOptions]
    rw [if_neg h2]
    split <;> split <;> rfl
  · intro transport
    have h : mergeClaudeOptions (some { MaxTokens := 0, Temperature := 0, System := "" }) =
        mergeClaudeOptions none := by decide
    simp only [InvokeClaude, h]
    rw [if_neg (by decide : ¬ ("p" : String) = "")]
    split <;> first | rfl | (split <;> rfl)

/-- Witness for the amended C7 at caller `maxTokens` values `100` and `0`. -/
theorem InvokeClaude_maxTokens_merge_witness :
    (mergeClaudeOptions (some { MaxTokens := 100, Temperature := 0, System := "" })).MaxTokens = 100 ∧
    (mergeClaudeOptions (some { MaxTokens := 0, Temperature := 0, System := "" })).MaxTokens =
      DefaultMaxTokens :=
  ⟨InvokeClaude_maxTokens_merge.1 { MaxTokens := 100, Temperature := 0, System := "" } (by decide),
   InvokeClaude_maxTokens_merge.2.1 { MaxTokens := 0, Temperature := 0, System := "" } (by decide)⟩

/-- Claim C8: the handler returns 400 with an `{error, details}` body for
a commit message longer than 500 characters; 400 with `{error, details}`
when the service fails with `ErrBadHaikuRequest`; and 500 with a
details-free `{error}` body for every other service failure. -/
theorem postHaiku_status_mapping :
    (∀ (ε : Type) (service : HaikuCommitRequest → Except (HaikuErr ε) HaikuCommitResponse)
      (req : HaikuCommitRequest), 500 < req.CommitMessage.length →
      (postHaiku service (.bound req)).1 = 400 ∧
        ∃ d, (postHaiku service (.bound req)).2 = .errorWithDetails InvalidRequest d) ∧
    (∀ (ε : Type) (service : HaikuCommitRequest → Except (HaikuErr ε) HaikuCommitResponse)
      (req : HaikuCommitRequest), ¬ req.CommitMessage.utf8ByteSize > MaxCommitLength →
      service req = .error .badHaikuRequest →
      postHaiku service (.bound req) =
        (400, .errorWithDetails InvalidRequest badHaikuRequestText)) ∧
    (∀ (ε : Type) (service : HaikuCommitRequest → Except (HaikuErr ε) HaikuCommitResponse)
      (req : HaikuCommitRequest) (e : ε), ¬ req.CommitMessage.utf8ByteSize > MaxCommitLength →
      service req = .error (.createHaiku e) →
      postHaiku service (.bound req) = (500, .errorOnly InternalServerError)) := by
  refine ⟨?_, ?_, ?_⟩
  · intro ε service req h
    have hb : req.CommitMessage.utf8ByteSize > MaxCommitLength :=
      lt_of_lt_of_le h (length_le_utf8ByteSize _)
    simp [postHaiku, hb]
  · intro ε service req h hs
    simp [postHaiku, h, hs]
  · intro ε service req e h hs
    simp [postHaiku, h, hs]

/-- Witness for C8: a 501-character commit message, a service signalling
`ErrBadHaikuRequest`, and a service signalling a wrapped downstream
failure. -/
theorem postHaiku_status_mapping_witness :
    ((postHaiku (fun _ => .error (.badHaikuRequest : HaikuErr Unit))
        (.bound { CommitMessage := String.mk (List.replicate 501 'a'), Mood := "" })).1 = 400 ∧
      ∃ d, (postHaiku (fun _ => .error (.badHaikuRequest : HaikuErr Unit))
        (.bound { CommitMessage := String.mk (List.replicate 501 'a'), Mood := "" })).2 =
          .errorWithDetails InvalidRequest d) ∧
    postHaiku (fun _ => .error (.badHaikuRequest : HaikuErr Unit))
        (.bound { CommitMessage := "test commit", Mood := "silly" }) =
      (400, .errorWithDetails InvalidRequest badHaikuRequestText) ∧
    postHaiku (fun _ => .error (.createHaiku ()))
        (.bound { CommitMessage := "test commit", Mood := "" }) =
      (500, .errorOnly InternalServerError) :=
  ⟨postHaiku_status_mapping.1 Unit (fun _ => .error .badHaikuRequest)
      { CommitMessage := String.mk (List.replicate 501 'a'), Mood := "" } replicate501_length_gt,
   postHaiku_status_mapping.2.1 Unit (fun _ => .error .badHaikuRequest)
      { CommitMessage := "test commit", Mood := "silly" } (by decide) rfl,
   postHaiku_status_mapping.2.2 Unit (fun _ => .error (.createHaiku ()))
      { CommitMessage := "test commit", Mood := "" } () (by decide) rfl⟩

/-- Claim C9: `CreateHaiku` never mutates its input request: on every path
(invalid mood, client success, client error, client fault) the request
variable at exit equals the input; and defaulting an empty mood to
`"reflective"` shows up only in the constructed prompt, while the
request's `Mood` field stays empty. -/
theorem CreateHaiku_request_unchanged :
    (∀ (ε : Type) (client : String → Option ClaudeOptions → GoResult ε String)
      (req : HaikuCommitRequest), (CreateHaiku client req).requestAfter = req) ∧
    (∀ (ε : Type) (client : String → Option ClaudeOptions → GoResult ε String) (msg : String),
      (CreateHaiku client { CommitMessage := msg, Mood := "" }).calls.map Prod.fst =
        ["Create a " ++ MoodReflective ++ " haiku from this commit message: " ++ msg] ∧
      (CreateHaiku client { CommitMessage := msg, Mood := "" }).requestAfter.Mood = "") := by
  constructor
  · intro ε client req
    simp only [CreateHaiku]
    split
    · rfl
    · split <;> rfl
  · intro ε client msg
    constructor
    · simp only [CreateHaiku]
      rw [if_neg (by simp)]
      split <;> simp_all
    · simp only [CreateHaiku]
      rw [if_neg (by simp)]
      split <;> rfl

/-- Claim C10: `CreateHaiku` does not validate the commit message: with an
empty commit message and empty mood it never fails with
`ErrBadHaikuRequest`; every prompt it hands to the client is non-empty
(the template supplies text around the message), so composing with
`InvokeClaude` the empty-prompt `ErrInvalidRequest` check cannot fire; and
with a transport returning a successful non-empty-content response, the
call on `{commitMessage:"", mood:""}` succeeds with the first block's
text. -/
theorem CreateHaiku_skips_commit_message_validation :
    (∀ (ε : Type) (client : String → Option ClaudeOptions → GoResult ε String),
      (CreateHaiku client { CommitMessage := "", Mood := "" }).result ≠
        .err .badHaikuRequest) ∧
    (∀ (ε : Type) (client : String → Option ClaudeOptions → GoResult ε String)
      (req : HaikuCommitRequest) (p : String) (o : Option ClaudeOptions),
      (p, o) ∈ (CreateHaiku client req).calls → p ≠ "") ∧
    (∀ (resp : ClaudeResponse) (b : ContentBlock) (bs : List ContentBlock),
      resp.Content = b :: bs →
      (CreateHaiku (fun p o => (InvokeClaude (fun _ => .success (some resp)) p o).1)
        { CommitMessage := "", Mood := "" }).result = .ok { Haiku := b.Text }) := by
  refine ⟨?_, ?_, ?_⟩
  · intro ε client
    simp only [CreateHaiku]
    rw [if_neg (by simp)]
    split <;> simp_all
  · intro ε client req p o h
    revert h
    simp only [CreateHaiku]
    split
    · simp
    · split <;>
      · intro h
        simp only [List.mem_singleton, Prod.mk.injEq] at h
        rcases h with ⟨h1, h2⟩
        subst h1
        apply prompt_ne_empty
  · intro resp b bs h
    simp only [CreateHaiku]
    rw [if_neg (by simp)]
    simp only [InvokeClaude]
    rw [if_neg (prompt_ne_empty _ _)]
    simp [h]

/-- Witness for C10: the service run on the empty request against a
transport that returns one content block. -/
theorem CreateHaiku_skips_commit_message_validation_witness :
    (CreateHaiku
        (fun p o =>
          (InvokeClaude
            (fun _ => .success (some { Content := [{ Text := "line one", Ty := "text" }] })) p o).1)
        { CommitMessage := "", Mood := "" }).result = .ok { Haiku := "line one" } :=
  CreateHaiku_skips_commit_message_validation.2.2
    { Content := [{ Text := "line one", Ty := "text" }] } { Text := "line one", Ty := "text" } []
    rfl

end Leaves
